/-
Shallow embedding of the cricket-analysis pipeline (`cricket.py`) and
verification of the specified properties.

The script is a linear pandas/scikit-learn batch pipeline:
  load two CSVs -> inner-join on `match_id` -> sample 30% with seed 42
  -> fillna(0) -> astype('category') on batter/bowler
  -> StandardScaler + KMeans(n_clusters=4, random_state=42)
  -> three groupby aggregations (batter stats, bowler trends, bowler economy)
  -> CSV export -> two chart steps, each in its own try/except.

Modelling choices:
  * a table is a `List` of records; a cell is `Option Val` (`none` = NaN),
    where `Val` is a rational number or a string (pandas object cells);
  * machine floats are modelled by rationals;
  * the library randomness (numpy sampling, k-means initialisation) is a
    deterministic function of the fixed seed, which is how the script uses it.
-/
import Mathlib

/-- A (non-null) cell value: a number or a string. -/
inductive Val : Type where
  | num (q : ℚ)
  | str (s : String)
deriving DecidableEq, Repr

/-- A delivery record: one row of `cleaned_deliveries.csv`.  Cells may be
null (`none`), which `pd.read_csv` produces for empty fields. -/
structure DRow : Type where
  match_id : Option Val
  over : Option Val
  ball_number : Option Val
  batter : Option Val
  bowler : Option Val
  runs_batter : Option Val
  pressure_index : Option Val
  bowler_economy : Option Val
  batter_strike_rate : Option Val
deriving DecidableEq, Repr

/-- A match record: one row of `cleaned_match_info.csv`; its non-key
metadata columns are kept abstract as a list of cells. -/
structure MRow : Type where
  match_id : Option Val
  meta : List (Option Val)
deriving DecidableEq, Repr

/-- A merged row: a delivery record together with its match metadata
(`delivery_df.merge(match_df, on='match_id')`). -/
structure Row : Type where
  match_id : Option Val
  over : Option Val
  ball_number : Option Val
  batter : Option Val
  bowler : Option Val
  runs_batter : Option Val
  pressure_index : Option Val
  bowler_economy : Option Val
  batter_strike_rate : Option Val
  meta : List (Option Val)
deriving DecidableEq, Repr

/-- Inner join of the delivery table with the match table on `match_id`
(`delivery_df.merge(match_df, on='match_id')`): each delivery row is paired
with every match row carrying the same key; rows without a partner drop. -/
def mergeRows (delivery_df : List DRow) (match_df : List MRow) : List Row :=
  delivery_df.flatMap fun d =>
    (match_df.filter fun m => decide (m.match_id = d.match_id)).map fun m =>
      { match_id := d.match_id, over := d.over, ball_number := d.ball_number,
        batter := d.batter, bowler := d.bowler, runs_batter := d.runs_batter,
        pressure_index := d.pressure_index, bowler_economy := d.bowler_economy,
        batter_strike_rate := d.batter_strike_rate, meta := m.meta }

/-- One step of a linear congruential generator; stands in for the numpy
pseudo-random stream, which is a deterministic function of the fixed seed. -/
def lcgNext (s : Nat) : Nat :=
  (s * 6364136223846793005 + 1442695040888963407) % (2 ^ 64)

/-- Fisher-Yates-style shuffle driven by `lcgNext`, fuelled by the list
length: repeatedly extract the element at a pseudo-random index. -/
def shuffleGo {α : Type} : Nat → Nat → List α → List α
  | 0, _, _ => []
  | _ + 1, _, [] => []
  | fuel + 1, st, a :: as =>
    (a :: as).get
        ⟨lcgNext st % (as.length + 1),
          by simpa using Nat.mod_lt (lcgNext st) (Nat.succ_pos as.length)⟩ ::
      shuffleGo fuel (lcgNext st)
        ((a :: as).eraseIdx (lcgNext st % (as.length + 1)))

/-- Deterministic permutation of a list from a seed; models the
`random_state=42` shuffle underlying `df.sample`. -/
def shuffle {α : Type} (seed : Nat) (l : List α) : List α :=
  shuffleGo l.length seed l

/-- Round half to even on rationals (Python `round`, used by pandas to turn
`frac` into a row count). -/
def roundHalfEven (q : ℚ) : ℤ :=
  if q - (⌊q⌋ : ℚ) < 1 / 2 then ⌊q⌋
  else if 1 / 2 < q - (⌊q⌋ : ℚ) then ⌊q⌋ + 1
  else if Even ⌊q⌋ then ⌊q⌋ else ⌊q⌋ + 1

/-- Number of rows drawn by `df.sample(frac=0.3)` from `n` rows:
`round(0.3 * n)`. -/
def sampleSize (n : Nat) : Nat :=
  (roundHalfEven ((3 * n : ℚ) / 10)).toNat

/-- `df.sample(frac=0.3, random_state=42)`: draw `round(0.3 * n)` rows
without replacement, i.e. a prefix of a seeded permutation of the table. -/
def sampleDf (l : List Row) : List Row :=
  (shuffle 42 l).take (sampleSize l.length)

/-- `fillna(0)` on one cell: a null cell becomes the literal number 0,
whatever the column type; non-null cells are untouched. -/
def fillO (c : Option Val) : Option Val :=
  some (c.getD (Val.num 0))

/-- `df.fillna(0, inplace=True)` on one row: every null cell in every
column becomes the literal number 0. -/
def fillnaRow (r : Row) : Row :=
  { match_id := fillO r.match_id, over := fillO r.over,
    ball_number := fillO r.ball_number, batter := fillO r.batter,
    bowler := fillO r.bowler, runs_batter := fillO r.runs_batter,
    pressure_index := fillO r.pressure_index,
    bowler_economy := fillO r.bowler_economy,
    batter_strike_rate := fillO r.batter_strike_rate,
    meta := r.meta.map fillO }

/-- Boolean order on values used when pandas sorts group keys: numbers
before strings, numbers by value, strings lexicographically. -/
def valLeB : Val → Val → Bool
  | Val.num a, Val.num b => decide (a ≤ b)
  | Val.num _, Val.str _ => true
  | Val.str _, Val.num _ => false
  | Val.str a, Val.str b => decide (a ≤ b)

/-- Boolean order on cells: null first, then by `valLeB`. -/
def cellLeB : Option Val → Option Val → Bool
  | none, _ => true
  | some _, none => false
  | some a, some b => valLeB a b

/-- `astype('category')` result: the rows are unchanged; the column in
addition records its category list (the sorted distinct values present at
conversion time, as pandas builds it). -/
structure CDf : Type where
  rows : List Row
  batterCats : List (Option Val)
  bowlerCats : List (Option Val)
deriving DecidableEq, Repr

/-- `df['batter'] = df['batter'].astype('category')` and likewise for
`bowler`: record the category lists, leave every cell value unchanged. -/
def astypeCategory (df : List Row) : CDf :=
  { rows := df,
    batterCats :=
      List.insertionSort (fun a b => cellLeB a b = true) (df.map (·.batter)).dedup,
    bowlerCats :=
      List.insertionSort (fun a b => cellLeB a b = true) (df.map (·.bowler)).dedup }

/-- Numeric reading of a cell, as the aggregations and the feature matrix
use it: a numeric cell gives its value, anything else contributes 0. -/
def numVal : Option Val → ℚ
  | some (Val.num q) => q
  | _ => 0

/-- The feature matrix `df[['over', 'ball_number', 'pressure_index',
'bowler_economy']]`, one row of four rationals per table row. -/
def featureMatrix (df : List Row) : List (List ℚ) :=
  df.map fun r =>
    [numVal r.over, numVal r.ball_number, numVal r.pressure_index,
      numVal r.bowler_economy]

/-- Mean of column `j` of a feature matrix. -/
def colMean (X : List (List ℚ)) (j : Nat) : ℚ :=
  (X.map fun row => row.getD j 0).sum / (X.length : ℚ)

/-- Population variance of column `j` of a feature matrix (ddof = 0, as
scikit-learn computes it). -/
def colVar (X : List (List ℚ)) (j : Nat) : ℚ :=
  (X.map fun row =>
    (row.getD j 0 - colMean X j) * (row.getD j 0 - colMean X j)).sum /
    (X.length : ℚ)

/-- Modelled from the spec: `StandardScaler().fit_transform` is library
code, not in the repository.  It standardizes each feature column by an
affine map `(x - mean) / scale` with `scale = 1` on constant columns.  The
true `scale` is the standard deviation, an irrational square root in
general, so this rational model divides by the variance instead — also a
positive per-column rescaling; no verified claim depends on the scaled
values, only on this map being a deterministic function of its input. -/
def standardScalerFitTransform (X : List (List ℚ)) : List (List ℚ) :=
  let ncols := (X.headD []).length
  X.map fun row =>
    (List.range ncols).map fun j =>
      (row.getD j 0 - colMean X j) / (if colVar X j = 0 then 1 else colVar X j)

/-- Squared euclidean distance between two feature rows. -/
def sqDist (a b : List ℚ) : ℚ :=
  ((a.zip b).map fun p => (p.1 - p.2) * (p.1 - p.2)).sum

/-- Index of the first minimum of a list of rationals (`np.argmin`). -/
def argminIdx : List ℚ → Nat
  | [] => 0
  | x :: xs =>
    match xs.get? (argminIdx xs) with
    | none => 0
    | some y => if x ≤ y then 0 else argminIdx xs + 1

/-- Modelled from the spec: `KMeans(n_clusters=4, random_state=42)
.fit_predict` is library code, not in the repository.  Per its interface it
raises when there are fewer samples than clusters, and otherwise assigns
each row a label in `{0, …, n_clusters - 1}`, deterministically for a fixed
`random_state` and input.  The model picks the first `k` rows as centroids
and labels each row by its nearest centroid; the verified claims depend
only on determinism and on the label range. -/
def kmeansFitPredict (k : Nat) (X : List (List ℚ)) : Except String (List Nat) :=
  if X.length < k then
    Except.error "n_samples should be >= n_clusters"
  else
    let cents := X.take k
    Except.ok (X.map fun x => argminIdx (cents.map fun c => sqDist x c))

/-- A labelled row: a merged row together with its `delivery_type` cluster
label (`df['delivery_type'] = kmeans.fit_predict(X_scaled)`). -/
structure LRow : Type where
  row : Row
  delivery_type : Nat
deriving DecidableEq, Repr

/-- Attach the cluster labels to the table rows, positionally. -/
def labelDf (df : List Row) (labels : List Nat) : List LRow :=
  (df.zip labels).map fun p => { row := p.1, delivery_type := p.2 }

/-- One row of `batter_stats` after the column flattening of line 44. -/
structure BStat : Type where
  batter : Option Val
  delivery_type : Nat
  total_runs : ℚ
  avg_runs : ℚ
  balls_faced : Nat
  avg_strike_rate : ℚ
deriving DecidableEq, Repr

/-- Order on `(batter, delivery_type)` group keys: lexicographic. -/
def keyLeB (a b : Option Val × Nat) : Bool :=
  if a.1 = b.1 then decide (a.2 ≤ b.2) else cellLeB a.1 b.1

/-- The sorted distinct `(batter, delivery_type)` keys of a groupby with
`observed=True`: exactly the key pairs occurring in the table. -/
def batterKeys (ldf : List LRow) : List (Option Val × Nat) :=
  List.insertionSort (fun a b => keyLeB a b = true)
    ((ldf.map fun r => (r.row.batter, r.delivery_type)).dedup)

/-- The aggregate row for one `(batter, delivery_type)` group:
sum and mean of `runs_batter`, row count, mean of `batter_strike_rate`. -/
def aggBatterKey (ldf : List LRow) (k : Option Val × Nat) : BStat :=
  let g := ldf.filter fun r => decide (r.row.batter = k.1 ∧ r.delivery_type = k.2)
  { batter := k.1, delivery_type := k.2,
    total_runs := (g.map fun r => numVal r.row.runs_batter).sum,
    avg_runs := (g.map fun r => numVal r.row.runs_batter).sum / (g.length : ℚ),
    balls_faced := g.length,
    avg_strike_rate :=
      (g.map fun r => numVal r.row.batter_strike_rate).sum / (g.length : ℚ) }

/-- `batter_stats` (lines 37-44): group by `(batter, delivery_type)` with
`observed=True`, aggregate, flatten the columns.  The `cats` argument is
the category list attached by `astype('category')`; with `observed=True`
only keys occurring in the table form groups, with `observed=False` pandas
would take the product of the categories with the observed labels. -/
def batter_stats (ldf : List LRow) (cats : List (Option Val))
    (observed : Bool) : List BStat :=
  let keys :=
    if observed then batterKeys ldf
    else cats.flatMap fun b =>
      (List.insertionSort (· ≤ ·) ((ldf.map (·.delivery_type)).dedup)).map
        fun t => (b, t)
  keys.map (aggBatterKey ldf)

/-- The sorted distinct `delivery_type` values of the table: the columns
`unstack` produces. -/
def dtypeCols (ldf : List LRow) : List Nat :=
  List.insertionSort (· ≤ ·) ((ldf.map (·.delivery_type)).dedup)

/-- The sorted distinct bowlers of the table. -/
def bowlerKeys (ldf : List LRow) : List (Option Val) :=
  List.insertionSort (fun a b => cellLeB a b = true)
    ((ldf.map (·.row.bowler)).dedup)

/-- The pivoted bowler-trend table: a list of delivery-type columns and one
row per bowler holding the per-column counts. -/
structure TrendTable : Type where
  cols : List Nat
  rows : List (Option Val × List Nat)
deriving DecidableEq, Repr

/-- `bowler_trends` (line 47): group by `(bowler, delivery_type)` with
`observed=True`, count rows, `unstack(fill_value=0)`: one row per bowler,
one column per delivery type present, absent combinations count 0. -/
def bowler_trends (ldf : List LRow) (cats : List (Option Val))
    (observed : Bool) : TrendTable :=
  let cols := dtypeCols ldf
  let bowlers := if observed then bowlerKeys ldf else cats
  { cols := cols,
    rows := bowlers.map fun b =>
      (b, cols.map fun c =>
        (ldf.filter fun r =>
          decide (r.row.bowler = b ∧ r.delivery_type = c)).length) }

/-- `bowler_economy` (line 50): group by `bowler` with `observed=True`,
mean of `bowler_economy`. -/
def bowler_economy (ldf : List LRow) (cats : List (Option Val))
    (observed : Bool) : List (Option Val × ℚ) :=
  let bowlers := if observed then bowlerKeys ldf else cats
  bowlers.map fun b =>
    let g := ldf.filter fun r => decide (r.row.bowler = b)
    (b, (g.map fun r => numVal r.row.bowler_economy).sum / (g.length : ℚ))

/-- The three exported aggregate tables. -/
structure Outputs : Type where
  batterPatterns : List BStat
  bowlerTrends : TrendTable
  bowlerEconomy : List (Option Val × ℚ)
deriving DecidableEq, Repr

/-- The fatal-tier pipeline, lines 12-55: merge, sample, fill, recode,
scale, cluster, aggregate.  A clustering failure propagates as `error`. -/
def pipeline (match_df : List MRow) (delivery_df : List DRow) :
    Except String Outputs :=
  let df0 := mergeRows delivery_df match_df
  let df1 := sampleDf df0
  let df2 := df1.map fillnaRow
  let cdf := astypeCategory df2
  let X := standardScalerFitTransform (featureMatrix cdf.rows)
  match kmeansFitPredict 4 X with
  | Except.error e => Except.error e
  | Except.ok labels =>
    let ldf := labelDf cdf.rows labels
    Except.ok
      { batterPatterns := batter_stats ldf cdf.batterCats true,
        bowlerTrends := bowler_trends ldf cdf.bowlerCats true,
        bowlerEconomy := bowler_economy ldf cdf.bowlerCats true }

/-- The same pipeline written without the two `astype('category')`
conversions, following the spec sentence that the recoding "does not affect
any output value": the refinement comparison side. -/
def pipelineNoCat (match_df : List MRow) (delivery_df : List DRow) :
    Except String Outputs :=
  let df0 := mergeRows delivery_df match_df
  let df1 := sampleDf df0
  let df2 := df1.map fillnaRow
  let X := standardScalerFitTransform (featureMatrix df2)
  match kmeansFitPredict 4 X with
  | Except.error e => Except.error e
  | Except.ok labels =>
    let ldf := labelDf df2 labels
    Except.ok
      { batterPatterns := (batterKeys ldf).map (aggBatterKey ldf),
        bowlerTrends :=
          { cols := dtypeCols ldf,
            rows := (bowlerKeys ldf).map fun b =>
              (b, (dtypeCols ldf).map fun c =>
                (ldf.filter fun r =>
                  decide (r.row.bowler = b ∧ r.delivery_type = c)).length) },
        bowlerEconomy := (bowlerKeys ldf).map fun b =>
          let g := ldf.filter fun r => decide (r.row.bowler = b)
          (b, (g.map fun r => numVal r.row.bowler_economy).sum /
            (g.length : ℚ)) }

/-- `top_batters` (lines 61-66): per-batter sum of `total_runs`, the 20
largest (descending, stable), keeping only the batter labels. -/
def top_batters (bs : List BStat) : List (Option Val) :=
  let sums := (List.insertionSort (fun a b => cellLeB a b = true)
      ((bs.map (·.batter)).dedup)).map fun b =>
    (b, ((bs.filter fun s => decide (s.batter = b)).map (·.total_runs)).sum)
  ((List.insertionSort (fun a b : Option Val × ℚ => b.2 ≤ a.2) sums).take 20).map
    (·.1)

/-- `top_batter_stats` (line 67): the `batter_stats` rows whose batter is
among the top 20. -/
def top_batter_stats (bs : List BStat) : List BStat :=
  bs.filter fun s => decide (s.batter ∈ top_batters bs)

/-- Line 70: `clip(upper=250)` on the `avg_strike_rate` column. -/
def clipStrikeRates (bs : List BStat) : List BStat :=
  bs.map fun s => { s with avg_strike_rate := min s.avg_strike_rate 250 }

/-- Line 72: `pivot(index="batter", columns="delivery_type",
values="avg_strike_rate")`; pandas raises a duplicate-entry error when two
rows share an `(index, column)` pair, otherwise reshapes. -/
def pivotHeatmap (bs : List BStat) :
    Except String (List (Option Val × Nat × ℚ)) :=
  if (bs.map fun s => (s.batter, s.delivery_type)).Nodup then
    Except.ok (bs.map fun s => (s.batter, s.delivery_type, s.avg_strike_rate))
  else
    Except.error "Index contains duplicate entries, cannot reshape"

/-- `true` exactly on `ok` results. -/
def exceptOk {ε α : Type} : Except ε α → Bool
  | Except.ok _ => true
  | Except.error _ => false

instance {ε α : Type} [DecidableEq ε] [DecidableEq α] :
    DecidableEq (Except ε α) := fun x y =>
  match x, y with
  | Except.ok a, Except.ok b =>
    if h : a = b then isTrue (by rw [h])
    else isFalse (fun hc => h (by injection hc))
  | Except.error a, Except.error b =>
    if h : a = b then isTrue (by rw [h])
    else isFalse (fun hc => h (by injection hc))
  | Except.ok _, Except.error _ => isFalse (fun hc => Except.noConfusion hc)
  | Except.error _, Except.ok _ => isFalse (fun hc => Except.noConfusion hc)

/-- The body of the heatmap `try` block (lines 61-83): the data work that
can raise (top selection, clip, pivot), then the rendering and file save,
whose possible library failure is injected as `io` (the model cannot fail
while drawing, the real library can). -/
def heatmapStep (bs : List BStat) (io : Option String) : Except String Unit :=
  match pivotHeatmap (clipStrikeRates (top_batter_stats bs)) with
  | Except.error e => Except.error e
  | Except.ok _ =>
    match io with
    | some e => Except.error e
    | none => Except.ok ()

/-- The body of the bar-chart `try` block (lines 88-126): line 90 selects
the literal columns `[0, 1, 2, 3]` and raises a `KeyError` when one is
missing; the later rendering failure is injected as `io`. -/
def barStep (t : TrendTable) (io : Option String) : Except String Unit :=
  if ([0, 1, 2, 3].all fun c => decide (c ∈ t.cols)) then
    match io with
    | some e => Except.error e
    | none => Except.ok ()
  else
    Except.error "KeyError: [0, 1, 2, 3]"

/-- What one `except` handler prints: nothing on success, one warning line
carrying the exception text on failure. -/
def warnLines (pre : String) : Except String Unit → List String
  | Except.ok _ => []
  | Except.error e => [pre ++ e]

/-- Standard output of the two chart steps, each failure caught by its own
handler (lines 84-85 and 128-129). -/
def chartPhase (out : Outputs) (hE bE : Option String) : List String :=
  warnLines "⚠️ Strike rate heatmap generation failed: "
      (heatmapStep out.batterPatterns hE) ++
    warnLines "⚠️ Horizontal bar chart generation failed: "
      (barStep out.bowlerTrends bE)

/-- Observable result of a completed run: the three exported tables, the
standard-output lines, and normal termination. -/
structure RunResult : Type where
  outputs : Outputs
  stdout : List String
  exitedNormally : Bool
deriving DecidableEq, Repr

/-- The run from successful export onward: the success marker of line 57,
then the chart phase; the chart steps can only add warning lines. -/
def runWith (out : Outputs) (hE bE : Option String) : RunResult :=
  { outputs := out,
    stdout := "✅ Analysis complete. CSVs saved." :: chartPhase out hE bE,
    exitedNormally := true }

/-- The whole script: the fatal-tier pipeline, then, when it succeeds, the
export marker and the fault-isolated chart phase. -/
def runPipeline (match_df : List MRow) (delivery_df : List DRow)
    (hE bE : Option String) : Except String RunResult :=
  Except.map (fun o => runWith o hE bE) (pipeline match_df delivery_df)

/-- Rational rendered the way a value lands in a CSV cell (exact form;
stands in for the float formatting, which is injective on values). -/
def ratStr (q : ℚ) : String :=
  if q.den = 1 then toString q.num else toString q.num ++ "/" ++ toString q.den

/-- A cell as written by `to_csv`: empty for null, bare text for strings. -/
def cellStr : Option Val → String
  | none => ""
  | some (Val.num q) => ratStr q
  | some (Val.str s) => s

/-- One line of `output_batter_patterns.csv`. -/
def bstatLine (s : BStat) : String :=
  String.intercalate ","
    [cellStr s.batter, toString s.delivery_type, ratStr s.total_runs,
      ratStr s.avg_runs, toString s.balls_faced, ratStr s.avg_strike_rate]

/-- `output_batter_patterns.csv` as one string (header plus rows,
`index=False`). -/
def renderBatterCsv (l : List BStat) : String :=
  String.intercalate "\n"
    ("batter,delivery_type,total_runs,avg_runs,balls_faced,avg_strike_rate" ::
      l.map bstatLine)

/-- `output_bowler_trends.csv` as one string. -/
def renderTrendsCsv (t : TrendTable) : String :=
  String.intercalate "\n"
    (String.intercalate "," ("bowler" :: t.cols.map toString) ::
      t.rows.map fun p =>
        String.intercalate "," (cellStr p.1 :: p.2.map toString))

/-- `output_bowler_economy.csv` as one string. -/
def renderEconomyCsv (l : List (Option Val × ℚ)) : String :=
  String.intercalate "\n"
    ("bowler,bowler_economy" ::
      l.map fun p => String.intercalate "," [cellStr p.1, ratStr p.2])

/-- The three CSV files, as contents. -/
def renderOutputs (o : Outputs) : String × String × String :=
  (renderBatterCsv o.batterPatterns, renderTrendsCsv o.bowlerTrends,
    renderEconomyCsv o.bowlerEconomy)

/-- A small concrete `Outputs` value used to witness the chart-failure
claims: no batter rows, an empty trend table carrying the four delivery
type columns, no economy rows. -/
def demoOutputs : Outputs :=
  { batterPatterns := [],
    bowlerTrends := { cols := [0, 1, 2, 3], rows := [] },
    bowlerEconomy := [] }

/-- A concrete merged row (all cells present) used by witnesses. -/
def demoRow : Row :=
  { match_id := some (Val.num 1), over := some (Val.num 1),
    ball_number := some (Val.num 1), batter := some (Val.str "A"),
    bowler := some (Val.str "X"), runs_batter := some (Val.num 4),
    pressure_index := some (Val.num 2), bowler_economy := some (Val.num 7),
    batter_strike_rate := some (Val.num 120), meta := [] }

/-- A concrete merged row with a null `batter_strike_rate`, used to witness
the missing-value claim. -/
def nullStrikeRow : Row :=
  { match_id := some (Val.num 1), over := some (Val.num 2),
    ball_number := some (Val.num 5), batter := some (Val.str "B"),
    bowler := some (Val.str "Y"), runs_batter := some (Val.num 1),
    pressure_index := some (Val.num 3), bowler_economy := some (Val.num 8),
    batter_strike_rate := none, meta := [none] }

/-- A concrete labelled row used by witnesses. -/
def demoLRow : LRow :=
  { row := demoRow, delivery_type := 0 }

/-- The aggregate row the pipeline produces for the one-row table
`[demoLRow]`, used by witnesses. -/
def demoStat : BStat :=
  { batter := some (Val.str "A"), delivery_type := 0, total_runs := 4,
    avg_runs := 4, balls_faced := 1, avg_strike_rate := 120 }

/-- Four labelled rows of one bowler covering all four delivery types,
used by witnesses. -/
def demoLRows : List LRow :=
  [{ row := demoRow, delivery_type := 0 }, { row := demoRow, delivery_type := 1 },
    { row := demoRow, delivery_type := 2 }, { row := demoRow, delivery_type := 3 }]

/-- The bowler-trend row the pipeline produces for `demoLRows`, used by
witnesses. -/
def demoTrendRow : Option Val × List Nat :=
  (some (Val.str "X"), [1, 1, 1, 1])

/-- The aggregate row produced for the filled version of `nullStrikeRow`,
whose null strike rate contributes the value 0 to the mean. -/
def demoFilledStat : BStat :=
  { batter := some (Val.str "B"), delivery_type := 0, total_runs := 1,
    avg_runs := 1, balls_faced := 1, avg_strike_rate := 0 }

/-- Extracting the element at index `i` and prepending it to the remainder
permutes the list. -/
theorem get_cons_eraseIdx_perm {α : Type} :
    ∀ (l : List α) (i : Nat) (h : i < l.length),
      List.Perm (l.get ⟨i, h⟩ :: l.eraseIdx i) l := by
  intro l
  induction l with
  | nil => intro i h; exact absurd h (by simp)
  | cons a as ih =>
    intro i h
    cases i with
    | zero => simp
    | succ n =>
      have hn : n < as.length := by simpa using h
      have step : (a :: as).get ⟨n + 1, h⟩ = as.get ⟨n, hn⟩ := rfl
      rw [step, List.eraseIdx_cons_succ]
      exact (List.Perm.swap a (as.get ⟨n, hn⟩) (as.eraseIdx n)).trans
        ((ih n hn).cons a)

/-- `shuffleGo` permutes its input when given enough fuel. -/
theorem shuffleGo_perm {α : Type} :
    ∀ (fuel st : Nat) (l : List α), l.length ≤ fuel →
      List.Perm (shuffleGo fuel st l) l := by
  intro fuel
  induction fuel with
  | zero =>
    intro st l h
    have : l = [] := List.eq_nil_of_length_eq_zero (Nat.le_zero.mp h)
    simp [this, shuffleGo]
  | succ n ih =>
    intro st l h
    cases l with
    | nil => simp [shuffleGo]
    | cons a as =>
      have hi : lcgNext st % (as.length + 1) < (a :: as).length := by
        simpa using Nat.mod_lt (lcgNext st) (Nat.succ_pos as.length)
      have h' : as.length + 1 ≤ n + 1 := by simpa using h
      have hlen : ((a :: as).eraseIdx (lcgNext st % (as.length + 1))).length ≤ n := by
        have he := List.length_eraseIdx_add_one hi
        simp only [List.length_cons] at he
        omega
      show List.Perm ((a :: as).get _ :: shuffleGo n (lcgNext st) _) (a :: as)
      exact (List.Perm.cons _ (ih (lcgNext st) _ hlen)).trans
        (get_cons_eraseIdx_perm (a :: as) _ hi)

/-- The seeded shuffle is a permutation of the table. -/
theorem shuffle_perm {α : Type} (seed : Nat) (l : List α) :
    List.Perm (shuffle seed l) l :=
  shuffleGo_perm l.length seed l (Nat.le_refl _)

/-- Rounding half to even never exceeds the floor plus one. -/
theorem roundHalfEven_le_floor_add_one (q : ℚ) :
    roundHalfEven q ≤ ⌊q⌋ + 1 := by
  unfold roundHalfEven
  split
  · omega
  · split
    · omega
    · split <;> omega

/-- The 30% sample size never exceeds the table size. -/
theorem sampleSize_le (n : Nat) : sampleSize n ≤ n := by
  unfold sampleSize
  rw [Int.toNat_le]
  rcases Nat.eq_zero_or_pos n with h | h
  · subst h
    norm_num [roundHalfEven]
  · have h1 := roundHalfEven_le_floor_add_one ((3 * n : ℚ) / 10)
    have h2 : ⌊(3 * n : ℚ) / 10⌋ < (n : ℤ) := by
      rw [Int.floor_lt]
      push_cast
      rw [div_lt_iff₀ (by norm_num)]
      have hn : (1 : ℚ) ≤ (n : ℚ) := by exact_mod_cast h
      nlinarith
    omega

/-- The sampled table has exactly `sampleSize n` rows. -/
theorem sampleDf_length (l : List Row) :
    (sampleDf l).length = sampleSize l.length := by
  unfold sampleDf
  rw [List.length_take, (shuffle_perm 42 l).length_eq]
  exact Nat.min_eq_left (sampleSize_le l.length)

/-- The first-minimum index of a nonempty list is a valid index. -/
theorem argminIdx_lt : ∀ (l : List ℚ), l ≠ [] → argminIdx l < l.length := by
  intro l hne
  match l with
  | x :: xs =>
    show argminIdx (x :: xs) < xs.length + 1
    unfold argminIdx
    cases hx : xs.get? (argminIdx xs) with
    | none => simp [hx]
    | some y =>
      have hj : argminIdx xs < xs.length := by
        rcases List.get?_eq_some.mp hx with ⟨h, _⟩
        exact h
      show (if x ≤ y then 0 else argminIdx xs + 1) < xs.length + 1
      split <;> omega

/-- Every label produced by a successful `fit_predict` is below the cluster
count. -/
theorem kmeans_labels_lt (k : Nat) (hk : 0 < k) (X : List (List ℚ))
    (labels : List Nat) (h : kmeansFitPredict k X = Except.ok labels) :
    ∀ l ∈ labels, l < k := by
  unfold kmeansFitPredict at h
  split at h
  · exact absurd h (by simp)
  · rename_i hlen
    injection h with h
    subst h
    intro l hl
    obtain ⟨x, hx, rfl⟩ := List.mem_map.mp hl
    have hcents : (X.take k).length = k := by
      rw [List.length_take]
      omega
    have hne : (X.take k).map (fun c => sqDist x c) ≠ [] := by
      intro hcon
      have hc := congrArg List.length hcon
      rw [List.length_map, hcents] at hc
      simp at hc
      omega
    have harg := argminIdx_lt _ hne
    rwa [List.length_map, hcents] at harg

/-- C4: the sampled table has exactly `round(0.30 * n)` rows, where `n` is
the row count of the inner join of the delivery and match tables on
`match_id`, and consists of distinct rows of that join: it is a prefix of a
permutation of the join, i.e. a choice of distinct join positions (sampling
without replacement). -/
theorem c4_sample_size_without_replacement
    (match_df : List MRow) (delivery_df : List DRow) :
    (sampleDf (mergeRows delivery_df match_df)).length
        = (roundHalfEven
            ((3 * (mergeRows delivery_df match_df).length : ℚ) / 10)).toNat ∧
      List.Sublist (sampleDf (mergeRows delivery_df match_df))
        (shuffle 42 (mergeRows delivery_df match_df)) ∧
      List.Perm (shuffle 42 (mergeRows delivery_df match_df))
        (mergeRows delivery_df match_df) := by
  refine ⟨?_, List.take_sublist _ _, shuffle_perm _ _⟩
  simpa [sampleSize] using sampleDf_length (mergeRows delivery_df match_df)

/-- C6: every delivery-type label assigned by the clustering step is an
integer in `{0, 1, 2, 3}`, and at most 4 distinct labels occur. -/
theorem c6_labels_in_range (X : List (List ℚ)) (labels : List Nat)
    (h : kmeansFitPredict 4 X = Except.ok labels) :
    (∀ l ∈ labels, l ∈ [0, 1, 2, 3]) ∧ labels.dedup.length ≤ 4 := by
  have hlt := kmeans_labels_lt 4 (by norm_num) X labels h
  constructor
  · intro l hl
    have h4 := hlt l hl
    simp only [List.mem_cons, List.mem_singleton]
    omega
  · have hsub : labels.toFinset ⊆ Finset.range 4 := fun a ha =>
      Finset.mem_range.mpr (hlt a (List.mem_toFinset.mp ha))
    have hc := Finset.card_le_card hsub
    rw [List.card_toFinset, Finset.card_range] at hc
    exact hc

/-- Witness for C6 at a concrete feature matrix. -/
theorem c6_witness :
    kmeansFitPredict 4 [[], [], [], []] = Except.ok [0, 0, 0, 0] ∧
      ((∀ l ∈ [0, 0, 0, 0], l ∈ [0, 1, 2, 3]) ∧
        ([0, 0, 0, 0] : List Nat).dedup.length ≤ 4) :=
  ⟨by simp [kmeansFitPredict, sqDist, argminIdx],
    c6_labels_in_range [[], [], [], []] [0, 0, 0, 0]
      (by simp [kmeansFitPredict, sqDist, argminIdx])⟩

/-- C1: the pipeline is a pure function of its two input tables (the
sampling and clustering randomness are deterministic functions of the
fixed seed 42), so two runs on the same pair of input files produce
identical contents for the three output CSV files. -/
theorem c1_deterministic_csv_outputs (m1 : List MRow) (d1 : List DRow)
    (m2 : List MRow) (d2 : List DRow) (hm : m1 = m2) (hd : d1 = d2) :
    Except.map renderOutputs (pipeline m1 d1)
      = Except.map renderOutputs (pipeline m2 d2) := by
  subst hm
  subst hd
  rfl

/-- Witness for C1 at a concrete pair of input tables. -/
theorem c1_witness :
    Except.map renderOutputs
        (pipeline [{ match_id := some (Val.num 1), meta := [] }]
          [{ match_id := some (Val.num 1), over := some (Val.num 1),
              ball_number := some (Val.num 1), batter := some (Val.str "A"),
              bowler := some (Val.str "X"), runs_batter := some (Val.num 4),
              pressure_index := some (Val.num 2),
              bowler_economy := some (Val.num 7),
              batter_strike_rate := some (Val.num 120) }])
      = Except.map renderOutputs
        (pipeline [{ match_id := some (Val.num 1), meta := [] }]
          [{ match_id := some (Val.num 1), over := some (Val.num 1),
              ball_number := some (Val.num 1), batter := some (Val.str "A"),
              bowler := some (Val.str "X"), runs_batter := some (Val.num 4),
              pressure_index := some (Val.num 2),
              bowler_economy := some (Val.num 7),
              batter_strike_rate := some (Val.num 120) }]) :=
  c1_deterministic_csv_outputs _ _ _ _ rfl rfl

/-- C9: the pipeline with the two `astype('category')` conversions
produces the same three aggregate tables as the pipeline without them:
the groupbys run with `observed=True`, so the recorded category lists
never enter the aggregation, and the conversion leaves every cell value
unchanged. -/
theorem c9_categorical_recode_preserves_outputs
    (match_df : List MRow) (delivery_df : List DRow) :
    pipeline match_df delivery_df = pipelineNoCat match_df delivery_df := by
  unfold pipeline pipelineNoCat
  rfl

/-- C8: after the clip step, every `avg_strike_rate` value feeding the
heatmap rendering is at most 250. -/
theorem c8_clip_bounds_strike_rate (bs : List BStat) (s : BStat)
    (hs : s ∈ clipStrikeRates (top_batter_stats bs)) :
    s.avg_strike_rate ≤ 250 := by
  obtain ⟨t, ht, rfl⟩ := List.mem_map.mp hs
  exact min_le_right _ _

/-- Witness for C8 at a one-row table whose raw value exceeds 250. -/
theorem c8_witness :
    ({ batter := some (Val.str "A"), delivery_type := 0, total_runs := 10,
        avg_runs := 10, balls_faced := 1,
        avg_strike_rate := min 300 250 } : BStat).avg_strike_rate ≤ 250 :=
  c8_clip_bounds_strike_rate
    [{ batter := some (Val.str "A"), delivery_type := 0, total_runs := 10,
        avg_runs := 10, balls_faced := 1, avg_strike_rate := 300 }] _
    (by simp [clipStrikeRates, top_batter_stats, top_batters])

/-- C5: if either chart-generation step raises, the exception is caught by
that step's own handler and reported as one warning line on standard
output; the exported tables are the pipeline's, unchanged by any chart
failure, the success marker is printed first, and the process terminates
normally. -/
theorem c5_chart_failures_isolated (out : Outputs) (hE bE : Option String) :
    (runWith out hE bE).exitedNormally = true ∧
    (runWith out hE bE).outputs = out ∧
    "✅ Analysis complete. CSVs saved." ∈ (runWith out hE bE).stdout ∧
    (∀ e, heatmapStep out.batterPatterns hE = Except.error e →
      ("⚠️ Strike rate heatmap generation failed: " ++ e)
        ∈ (runWith out hE bE).stdout) ∧
    (∀ e, barStep out.bowlerTrends bE = Except.error e →
      ("⚠️ Horizontal bar chart generation failed: " ++ e)
        ∈ (runWith out hE bE).stdout) ∧
    (∀ (m : List MRow) (d : List DRow), pipeline m d = Except.ok out →
      runPipeline m d hE bE = Except.ok (runWith out hE bE)) := by
  refine ⟨rfl, rfl, List.mem_cons_self _ _, ?_, ?_, ?_⟩
  · intro e he
    simp [runWith, chartPhase, he, warnLines]
  · intro e he
    simp [runWith, chartPhase, he, warnLines]
  · intro m d hmd
    unfold runPipeline
    rw [hmd]
    rfl

/-- Witness for C5: both chart steps fail on injected library errors and
both warnings appear; the run still terminates normally. -/
theorem c5_witness :
    (runWith demoOutputs (some "boom") (some "crash")).exitedNormally = true ∧
      ("⚠️ Strike rate heatmap generation failed: boom")
        ∈ (runWith demoOutputs (some "boom") (some "crash")).stdout ∧
      ("⚠️ Horizontal bar chart generation failed: crash")
        ∈ (runWith demoOutputs (some "boom") (some "crash")).stdout :=
  ⟨(c5_chart_failures_isolated demoOutputs (some "boom") (some "crash")).1,
    (c5_chart_failures_isolated demoOutputs (some "boom") (some "crash")).2.2.2.1
      "boom" (by simp [demoOutputs, heatmapStep, pivotHeatmap, clipStrikeRates,
        top_batter_stats, top_batters]),
    (c5_chart_failures_isolated demoOutputs (some "boom")
        (some "crash")).2.2.2.2.1
      "crash" (by simp [demoOutputs, barStep])⟩

/-- C2: every row of `batter_stats` describes a nonempty group of the
sampled-and-clustered table: `balls_faced` is its row count, `total_runs`
the sum of batter runs over it, `avg_runs` and `avg_strike_rate` the means
of batter runs and batter strike rate; key pairs without rows produce no
output row (every output row's group is nonempty). -/
theorem c2_batter_patterns_correct (ldf : List LRow) (cats : List (Option Val))
    (s : BStat) (hs : s ∈ batter_stats ldf cats true) :
    (ldf.filter fun r =>
        decide (r.row.batter = s.batter ∧
          r.delivery_type = s.delivery_type)) ≠ [] ∧
    s.balls_faced = (ldf.filter fun r =>
        decide (r.row.batter = s.batter ∧
          r.delivery_type = s.delivery_type)).length ∧
    s.total_runs = ((ldf.filter fun r =>
        decide (r.row.batter = s.batter ∧
          r.delivery_type = s.delivery_type)).map
          fun r => numVal r.row.runs_batter).sum ∧
    s.avg_runs = ((ldf.filter fun r =>
        decide (r.row.batter = s.batter ∧
          r.delivery_type = s.delivery_type)).map
          fun r => numVal r.row.runs_batter).sum /
        (((ldf.filter fun r =>
            decide (r.row.batter = s.batter ∧
              r.delivery_type = s.delivery_type)).length : ℕ) : ℚ) ∧
    s.avg_strike_rate = ((ldf.filter fun r =>
        decide (r.row.batter = s.batter ∧
          r.delivery_type = s.delivery_type)).map
          fun r => numVal r.row.batter_strike_rate).sum /
        (((ldf.filter fun r =>
            decide (r.row.batter = s.batter ∧
              r.delivery_type = s.delivery_type)).length : ℕ) : ℚ) := by
  replace hs : s ∈ (batterKeys ldf).map (aggBatterKey ldf) := hs
  obtain ⟨k, hk, rfl⟩ := List.mem_map.mp hs
  refine ⟨?_, rfl, rfl, rfl, rfl⟩
  have hk2 : k ∈ (ldf.map fun r => (r.row.batter, r.delivery_type)).dedup :=
    (List.mem_insertionSort _).mp hk
  rw [List.mem_dedup] at hk2
  obtain ⟨r, hr, hkey⟩ := List.mem_map.mp hk2
  intro hcon
  have hpred : (decide (r.row.batter = (aggBatterKey ldf k).batter ∧
      r.delivery_type = (aggBatterKey ldf k).delivery_type)) = true := by
    rw [decide_eq_true_eq]
    exact ⟨congrArg Prod.fst hkey, congrArg Prod.snd hkey⟩
  have hrin : r ∈ ldf.filter (fun r : LRow =>
      decide (r.row.batter = (aggBatterKey ldf k).batter ∧
        r.delivery_type = (aggBatterKey ldf k).delivery_type)) :=
    List.mem_filter.mpr ⟨hr, hpred⟩
  rw [hcon] at hrin
  exact (List.not_mem_nil r) hrin

/-- Witness for C2 at a concrete one-row table. -/
theorem c2_witness :
    ([demoLRow].filter fun r =>
        decide (r.row.batter = demoStat.batter ∧
          r.delivery_type = demoStat.delivery_type)) ≠ [] ∧
    demoStat.balls_faced = ([demoLRow].filter fun r =>
        decide (r.row.batter = demoStat.batter ∧
          r.delivery_type = demoStat.delivery_type)).length ∧
    demoStat.total_runs = (([demoLRow].filter fun r =>
        decide (r.row.batter = demoStat.batter ∧
          r.delivery_type = demoStat.delivery_type)).map
          fun r => numVal r.row.runs_batter).sum ∧
    demoStat.avg_runs = (([demoLRow].filter fun r =>
        decide (r.row.batter = demoStat.batter ∧
          r.delivery_type = demoStat.delivery_type)).map
          fun r => numVal r.row.runs_batter).sum /
        ((([demoLRow].filter fun r =>
            decide (r.row.batter = demoStat.batter ∧
              r.delivery_type = demoStat.delivery_type)).length : ℕ) : ℚ) ∧
    demoStat.avg_strike_rate = (([demoLRow].filter fun r =>
        decide (r.row.batter = demoStat.batter ∧
          r.delivery_type = demoStat.delivery_type)).map
          fun r => numVal r.row.batter_strike_rate).sum /
        ((([demoLRow].filter fun r =>
            decide (r.row.batter = demoStat.batter ∧
              r.delivery_type = demoStat.delivery_type)).length : ℕ) : ℚ) :=
  c2_batter_patterns_correct [demoLRow] [] demoStat
    (by simp [batter_stats, batterKeys, aggBatterKey, demoLRow, demoRow,
      demoStat, numVal, List.insertionSort, List.orderedInsert])

/-- Summing an indicator over a list missing `x` gives 0. -/
theorem sum_map_ite_zero (x : Nat) :
    ∀ (cols : List Nat), x ∉ cols →
      (cols.map fun c => if x = c then (1 : Nat) else 0).sum = 0 := by
  intro cols
  induction cols with
  | nil => intro _; simp
  | cons c cs ih =>
    intro hx
    simp only [List.map_cons, List.sum_cons]
    have hxc : ¬x = c := fun hc => hx (by rw [hc]; exact List.mem_cons_self c cs)
    rw [if_neg hxc, ih (fun hm => hx (List.mem_cons_of_mem c hm))]

/-- Summing an indicator over a duplicate-free list containing `x` gives
1. -/
theorem sum_map_ite_one (x : Nat) :
    ∀ (cols : List Nat), cols.Nodup → x ∈ cols →
      (cols.map fun c => if x = c then (1 : Nat) else 0).sum = 1 := by
  intro cols
  induction cols with
  | nil => intro _ hx; simp at hx
  | cons c cs ih =>
    intro hnd hx
    simp only [List.map_cons, List.sum_cons]
    rcases List.mem_cons.mp hx with rfl | hx2
    · rw [if_pos rfl, sum_map_ite_zero x cs (List.nodup_cons.mp hnd).1]
    · have hxc : ¬x = c := fun hc =>
        (List.nodup_cons.mp hnd).1 (by rw [← hc]; exact hx2)
      rw [if_neg hxc, ih (List.nodup_cons.mp hnd).2 hx2]

/-- A duplicate-free column list covering every label partitions the rows:
the per-column counts sum to the row count. -/
theorem length_filter_partition (cols : List Nat) (hnd : cols.Nodup) :
    ∀ (m : List LRow), (∀ r ∈ m, r.delivery_type ∈ cols) →
      (cols.map fun c =>
        (m.filter fun r => decide (r.delivery_type = c)).length).sum
        = m.length := by
  intro m
  induction m with
  | nil => intro _; simp
  | cons r m ih =>
    intro hcov
    have hr := hcov r (List.mem_cons_self r m)
    have hm : ∀ x ∈ m, x.delivery_type ∈ cols := fun x hx =>
      hcov x (List.mem_cons_of_mem r hx)
    have hstep : ∀ c : Nat,
        ((r :: m).filter fun x => decide (x.delivery_type = c)).length
          = (if r.delivery_type = c then 1 else 0)
            + (m.filter fun x => decide (x.delivery_type = c)).length := by
      intro c
      rw [List.filter_cons]
      by_cases hc : r.delivery_type = c
      · rw [if_pos (by simpa using hc), if_pos hc]
        simp [Nat.add_comm]
      · rw [if_neg (by simpa using hc), if_neg hc]
        simp
    simp only [hstep]
    rw [List.sum_map_add, sum_map_ite_one r.delivery_type cols hnd hr, ih hm]
    simp [Nat.add_comm]

/-- C3: when every label is in `{0,1,2,3}` and each of the four labels
occurs (the clustering step's configured range, all four clusters
non-empty), the bowler-trends table has the delivery-type columns
`0, 1, 2, 3`; each row holds, per column `c`, the count of sampled rows of
that bowler with label `c` (absent combinations count 0), and the four
counts of every bowler row sum to that bowler's total row count. -/
theorem c3_bowler_trends_counts (ldf : List LRow) (cats : List (Option Val))
    (h4 : ∀ r ∈ ldf, r.delivery_type < 4)
    (hall : ∀ j ∈ [0, 1, 2, 3], ∃ r ∈ ldf, r.delivery_type = j) :
    (bowler_trends ldf cats true).cols = [0, 1, 2, 3] ∧
    ∀ p ∈ (bowler_trends ldf cats true).rows,
      (p.2 = [0, 1, 2, 3].map fun c =>
          (ldf.filter fun r =>
            decide (r.row.bowler = p.1 ∧ r.delivery_type = c)).length) ∧
      p.2.sum = (ldf.filter fun r => decide (r.row.bowler = p.1)).length := by
  have hperm : List.Perm (dtypeCols ldf) [0, 1, 2, 3] := by
    refine (List.perm_insertionSort _ _).trans ?_
    apply (List.perm_ext_iff_of_nodup (List.nodup_dedup _) (by decide)).mpr
    intro a
    rw [List.mem_dedup]
    constructor
    · intro ha
      obtain ⟨r, hr, hrt⟩ := List.mem_map.mp ha
      have h4r := h4 r hr
      rw [← hrt]
      simp only [List.mem_cons, List.mem_singleton]
      omega
    · intro ha
      obtain ⟨r, hr, hrt⟩ := hall a ha
      exact List.mem_map.mpr ⟨r, hr, hrt⟩
  have hcols : dtypeCols ldf = [0, 1, 2, 3] :=
    List.eq_of_perm_of_sorted hperm (List.sorted_insertionSort _ _) (by decide)
  refine ⟨hcols, ?_⟩
  intro p hp
  replace hp : p ∈ (bowlerKeys ldf).map fun b =>
      (b, (dtypeCols ldf).map fun c =>
        (ldf.filter fun r =>
          decide (r.row.bowler = b ∧ r.delivery_type = c)).length) := hp
  obtain ⟨b, hb, rfl⟩ := List.mem_map.mp hp
  constructor
  · show (dtypeCols ldf).map _ = ([0, 1, 2, 3]).map _
    rw [hcols]
  · show ((dtypeCols ldf).map fun c =>
        (ldf.filter fun r =>
          decide (r.row.bowler = b ∧ r.delivery_type = c)).length).sum
      = (ldf.filter fun r => decide (r.row.bowler = b)).length
    rw [hcols]
    have hsplit : ∀ c : Nat, (ldf.filter fun r =>
        decide (r.row.bowler = b ∧ r.delivery_type = c))
          = (ldf.filter fun r => decide (r.row.bowler = b)).filter
              fun r => decide (r.delivery_type = c) := by
      intro c
      rw [List.filter_filter]
      apply List.filter_congr
      intro r _
      simp [Bool.and_comm]
    simp only [hsplit]
    apply length_filter_partition [0, 1, 2, 3] (by decide)
    intro r hr
    have h4r := h4 r (List.mem_filter.mp hr).1
    simp only [List.mem_cons, List.mem_singleton]
    omega

/-- Witness for C3 at a concrete four-row table covering all labels. -/
theorem c3_witness :
    (bowler_trends demoLRows [] true).cols = [0, 1, 2, 3] ∧
      ((demoTrendRow.2 = [0, 1, 2, 3].map fun c =>
          (demoLRows.filter fun r =>
            decide (r.row.bowler = demoTrendRow.1 ∧
              r.delivery_type = c)).length) ∧
        demoTrendRow.2.sum = (demoLRows.filter fun r =>
          decide (r.row.bowler = demoTrendRow.1)).length) :=
  ⟨(c3_bowler_trends_counts demoLRows [] (by decide) (by decide)).1,
    (c3_bowler_trends_counts demoLRows [] (by decide) (by decide)).2
      demoTrendRow (by decide)⟩

/-- C7: the fill step keeps every row and replaces every null cell of every
column by the literal number 0, whatever the column type; a row whose
`batter_strike_rate` was null stays in its group and contributes the value
0 to that group's `avg_strike_rate`, which is the plain mean of the filled
strike-rate column over the group's rows. -/
theorem c7_fillna_zero_everywhere (df : List Row) (labels : List Nat) :
    (df.map fillnaRow).length = df.length ∧
    (∀ r ∈ df, fillnaRow r =
      { match_id := some (r.match_id.getD (Val.num 0)),
        over := some (r.over.getD (Val.num 0)),
        ball_number := some (r.ball_number.getD (Val.num 0)),
        batter := some (r.batter.getD (Val.num 0)),
        bowler := some (r.bowler.getD (Val.num 0)),
        runs_batter := some (r.runs_batter.getD (Val.num 0)),
        pressure_index := some (r.pressure_index.getD (Val.num 0)),
        bowler_economy := some (r.bowler_economy.getD (Val.num 0)),
        batter_strike_rate := some (r.batter_strike_rate.getD (Val.num 0)),
        meta := r.meta.map fun c => some (c.getD (Val.num 0)) }) ∧
    (∀ r ∈ df, r.batter_strike_rate = none →
      numVal (fillnaRow r).batter_strike_rate = 0) ∧
    (∀ (cats : List (Option Val)) (s : BStat),
      s ∈ batter_stats (labelDf (df.map fillnaRow) labels) cats true →
      s.avg_strike_rate =
        (((labelDf (df.map fillnaRow) labels).filter fun r =>
            decide (r.row.batter = s.batter ∧
              r.delivery_type = s.delivery_type)).map
          fun r => numVal r.row.batter_strike_rate).sum /
        ((((labelDf (df.map fillnaRow) labels).filter fun r =>
            decide (r.row.batter = s.batter ∧
              r.delivery_type = s.delivery_type)).length : ℕ) : ℚ)) := by
  refine ⟨List.length_map df fillnaRow, fun r _ => rfl, ?_, ?_⟩
  · intro r _ h
    simp [fillnaRow, fillO, h, numVal]
  · intro cats s hs
    replace hs : s ∈ (batterKeys (labelDf (df.map fillnaRow) labels)).map
        (aggBatterKey (labelDf (df.map fillnaRow) labels)) := hs
    obtain ⟨k, hk, rfl⟩ := List.mem_map.mp hs
    rfl

/-- Witness for C7 at a one-row table with a null strike rate. -/
theorem c7_witness :
    ([nullStrikeRow].map fillnaRow).length = [nullStrikeRow].length ∧
      fillnaRow nullStrikeRow =
        { match_id := some (nullStrikeRow.match_id.getD (Val.num 0)),
          over := some (nullStrikeRow.over.getD (Val.num 0)),
          ball_number := some (nullStrikeRow.ball_number.getD (Val.num 0)),
          batter := some (nullStrikeRow.batter.getD (Val.num 0)),
          bowler := some (nullStrikeRow.bowler.getD (Val.num 0)),
          runs_batter := some (nullStrikeRow.runs_batter.getD (Val.num 0)),
          pressure_index :=
            some (nullStrikeRow.pressure_index.getD (Val.num 0)),
          bowler_economy :=
            some (nullStrikeRow.bowler_economy.getD (Val.num 0)),
          batter_strike_rate :=
            some (nullStrikeRow.batter_strike_rate.getD (Val.num 0)),
          meta := nullStrikeRow.meta.map fun c => some (c.getD (Val.num 0)) } ∧
      numVal (fillnaRow nullStrikeRow).batter_strike_rate = 0 ∧
      demoFilledStat.avg_strike_rate =
        (((labelDf ([nullStrikeRow].map fillnaRow) [0]).filter fun r =>
            decide (r.row.batter = demoFilledStat.batter ∧
              r.delivery_type = demoFilledStat.delivery_type)).map
          fun r => numVal r.row.batter_strike_rate).sum /
        ((((labelDf ([nullStrikeRow].map fillnaRow) [0]).filter fun r =>
            decide (r.row.batter = demoFilledStat.batter ∧
              r.delivery_type = demoFilledStat.delivery_type)).length : ℕ) : ℚ) :=
  ⟨(c7_fillna_zero_everywhere [nullStrikeRow] [0]).1,
    (c7_fillna_zero_everywhere [nullStrikeRow] [0]).2.1 nullStrikeRow
      (by simp),
    (c7_fillna_zero_everywhere [nullStrikeRow] [0]).2.2.1 nullStrikeRow
      (by simp) rfl,
    (c7_fillna_zero_everywhere [nullStrikeRow] [0]).2.2.2 [] demoFilledStat
      (by simp [batter_stats, batterKeys, aggBatterKey, labelDf, fillnaRow,
        fillO, nullStrikeRow, demoFilledStat, numVal, List.insertionSort,
        List.orderedInsert])⟩

/-- C10: the heatmap's pivot on `(batter, delivery_type)` can never hit a
duplicate-entry error: `batter_stats` carries at most one row per key pair
(its rows are indexed by the deduplicated key list), and the top-20 filter
and the clip step preserve the key pairs. -/
theorem c10_heatmap_pivot_never_fails (ldf : List LRow)
    (cats : List (Option Val)) :
    exceptOk (pivotHeatmap (clipStrikeRates
      (top_batter_stats (batter_stats ldf cats true)))) = true := by
  have h1 : (batter_stats ldf cats true).map
      (fun s => (s.batter, s.delivery_type)) = batterKeys ldf := by
    show ((batterKeys ldf).map (aggBatterKey ldf)).map
        (fun s => (s.batter, s.delivery_type)) = batterKeys ldf
    rw [List.map_map]
    have hcomp : ((fun s : BStat => (s.batter, s.delivery_type)) ∘
        aggBatterKey ldf) = id := by
      funext k
      cases k
      rfl
    rw [hcomp, List.map_id]
  have h2 : (batterKeys ldf).Nodup :=
    ((List.perm_insertionSort _ _).nodup_iff).mpr (List.nodup_dedup _)
  have h3 : ((batter_stats ldf cats true).map
      (fun s => (s.batter, s.delivery_type))).Nodup := by
    rw [h1]
    exact h2
  have h4 : ((top_batter_stats (batter_stats ldf cats true)).map
      (fun s => (s.batter, s.delivery_type))).Nodup :=
    List.Nodup.sublist (List.Sublist.map _ (List.filter_sublist _)) h3
  have h5 : ((clipStrikeRates (top_batter_stats
        (batter_stats ldf cats true))).map
      (fun s => (s.batter, s.delivery_type))).Nodup := by
    unfold clipStrikeRates
    rw [List.map_map]
    exact h4
  unfold pivotHeatmap
  rw [if_pos h5]
  rfl

/-- C3 counterexample: the clustering step can assign fewer than four
distinct labels (four identical feature rows all receive label 0), and
under such a labelling the unstacked bowler-trends table does not have the
delivery-type columns 0, 1, 2, 3 — its only column is 0 — so the claim's
unconditional column assertion fails. -/
theorem c3_counterexample :
    kmeansFitPredict 4 [[], [], [], []] = Except.ok [0, 0, 0, 0] ∧
      (bowler_trends (labelDf [demoRow, demoRow, demoRow, demoRow]
          [0, 0, 0, 0]) [] true).cols ≠ [0, 1, 2, 3] :=
  ⟨by simp [kmeansFitPredict, sqDist, argminIdx], by decide⟩
